import Mathlib

/-!
Verification of the `RwSpinlock` reader/writer spinlock from
`omango-util` (`src/lock.rs`) against its specification.

The lock state is a single `AtomicU32`; we embed it as a `Nat` together with
the protected payload, threading the state explicitly through each operation.
All `u32` arithmetic is taken modulo `2^32` exactly where the Rust wrapping
operations (`fetch_add`, `fetch_sub`) wrap.  Each acquisition either produces
a guard (modelled as a data-free token, since the Rust guard holds only a
back-reference to its parent lock) or not, plus the successor lock state.
-/

/-- The modulus of `u32` arithmetic: `AtomicU32::fetch_add`/`fetch_sub` wrap
modulo `2^32`. -/
def u32Mod : Nat := 2 ^ 32

/-- `WRITE_NUMBER` (src/lock.rs line 30): `const WRITE_NUMBER: u32 = 1_u32 << 30`,
the write sentinel. -/
def WRITE_NUMBER : Nat := 1 <<< 30

theorem WRITE_NUMBER_eq : WRITE_NUMBER = 1073741824 := by decide

theorem u32Mod_eq : u32Mod = 4294967296 := by norm_num [u32Mod]

theorem WRITE_NUMBER_pos : 0 < WRITE_NUMBER := by
  rw [WRITE_NUMBER_eq]
  norm_num

/-- `RwSpinlock<T>` (src/lock.rs lines 32-35): the atomic `flag` (a `u32`) and
the protected `value` in its `UnsafeCell`. -/
structure RwSpinlock (T : Type) where
  flag : Nat
  value : T
deriving Repr, DecidableEq

/-- `RwSpinlockGuard` (src/lock.rs lines 110-112): the single guard type used by
every acquisition.  In Rust it holds only `parent: &RwSpinlock<T>`; the lock
state is threaded explicitly here, so the guard carries no data.  There is one
guard type, not separate read/write variants. -/
structure RwSpinlockGuard where
deriving Repr, DecidableEq

/-- `RwSpinlock::new` (src/lock.rs lines 42-48): `flag` starts at `0`. -/
def RwSpinlock.new {T : Type} (value : T) : RwSpinlock T := ⟨0, value⟩

/-- `RwSpinlock::try_write` (src/lock.rs lines 50-60): one compare-exchange of
`0 → WRITE_NUMBER`; on success a guard is returned, on failure the flag is left
unchanged. -/
def RwSpinlock.tryWrite {T : Type} (l : RwSpinlock T) :
    Option RwSpinlockGuard × RwSpinlock T :=
  if l.flag = 0 then (some ⟨⟩, { l with flag := WRITE_NUMBER }) else (none, l)

/-- `RwSpinlock::try_read` (src/lock.rs lines 62-68): `fetch_add(1)` (wrapping
`u32`), observing the pre-increment value; a guard is produced iff the
pre-value is below `WRITE_NUMBER`.  The increment happens unconditionally and
is not reversed in either branch. -/
def RwSpinlock.tryRead {T : Type} (l : RwSpinlock T) :
    Option RwSpinlockGuard × RwSpinlock T :=
  let pre := l.flag
  let l' : RwSpinlock T := { l with flag := (l.flag + 1) % u32Mod }
  if pre < WRITE_NUMBER then (some ⟨⟩, l') else (none, l')

/-- One admission attempt of the blocking `RwSpinlock::read` (src/lock.rs lines
93-107, the body of the outer loop before the spin wait): `fetch_add(1)`,
admitted iff the pre-increment value is below `WRITE_NUMBER`.  On failure the
thread proceeds directly to the spin loop; the source performs no decrement
between the failed `fetch_add` and the spin. -/
def RwSpinlock.readAttempt {T : Type} (l : RwSpinlock T) :
    Option RwSpinlockGuard × RwSpinlock T :=
  let pre := l.flag
  let l' : RwSpinlock T := { l with flag := (l.flag + 1) % u32Mod }
  if pre < WRITE_NUMBER then (some ⟨⟩, l') else (none, l')

/-- `impl Drop for RwSpinlockGuard` (src/lock.rs lines 114-123): load the flag;
if it is at or above `WRITE_NUMBER`, store `0`; otherwise `fetch_sub(1)`
(wrapping `u32`). -/
def RwSpinlock.dropGuard {T : Type} (l : RwSpinlock T) : RwSpinlock T :=
  if WRITE_NUMBER ≤ l.flag then { l with flag := 0 }
  else { l with flag := (l.flag + (u32Mod - 1)) % u32Mod }

/-- `impl Deref for RwSpinlockGuard` (src/lock.rs lines 125-132): any guard
reads the protected value. -/
def RwSpinlock.deref {T : Type} (_g : RwSpinlockGuard) (l : RwSpinlock T) : T :=
  l.value

/-- `impl DerefMut for RwSpinlockGuard` (src/lock.rs lines 134-139): `DerefMut`
is implemented on the one unified guard type, so any guard — however it was
acquired — can overwrite the protected value; a write through the returned
mutable reference is modelled as replacing the payload. -/
def RwSpinlock.derefMutSet {T : Type} (_g : RwSpinlockGuard) (v : T)
    (l : RwSpinlock T) : RwSpinlock T :=
  { l with value := v }

/-- The lock state after `k` consecutive `try_read` calls (guards discarded;
`try_read` mutates the flag in both branches). -/
def RwSpinlock.tryReadIter {T : Type} : Nat → RwSpinlock T → RwSpinlock T
  | 0, l => l
  | k + 1, l => RwSpinlock.tryReadIter k (RwSpinlock.tryRead l).snd

/-- `true` iff each of `k` consecutive `try_read` calls returns `None`. -/
def RwSpinlock.tryReadAllFail {T : Type} : Nat → RwSpinlock T → Bool
  | 0, _ => true
  | k + 1, l =>
      (RwSpinlock.tryRead l).fst.isNone
        && RwSpinlock.tryReadAllFail k (RwSpinlock.tryRead l).snd

section Helpers

variable {T : Type}

theorem RwSpinlock.tryRead_fst (l : RwSpinlock T) :
    (RwSpinlock.tryRead l).fst =
      if l.flag < WRITE_NUMBER then some ⟨⟩ else none := by
  simp only [RwSpinlock.tryRead]
  split <;> rfl

theorem RwSpinlock.tryRead_snd_flag (l : RwSpinlock T) :
    (RwSpinlock.tryRead l).snd.flag = (l.flag + 1) % u32Mod := by
  simp only [RwSpinlock.tryRead]
  split <;> rfl

theorem RwSpinlock.tryWrite_fst (l : RwSpinlock T) :
    (RwSpinlock.tryWrite l).fst =
      if l.flag = 0 then some ⟨⟩ else none := by
  simp only [RwSpinlock.tryWrite]
  split <;> rfl

theorem RwSpinlock.tryWrite_snd_flag (l : RwSpinlock T) :
    (RwSpinlock.tryWrite l).snd.flag =
      if l.flag = 0 then WRITE_NUMBER else l.flag := by
  simp only [RwSpinlock.tryWrite]
  split <;> rfl

theorem RwSpinlock.dropGuard_flag (l : RwSpinlock T) :
    (RwSpinlock.dropGuard l).flag =
      if WRITE_NUMBER ≤ l.flag then 0
      else (l.flag + (u32Mod - 1)) % u32Mod := by
  unfold RwSpinlock.dropGuard
  split <;> rfl

theorem RwSpinlock.tryWrite_success (l : RwSpinlock T) (h : l.flag = 0) :
    RwSpinlock.tryWrite l = (some ⟨⟩, { l with flag := WRITE_NUMBER }) := by
  unfold RwSpinlock.tryWrite
  rw [if_pos h]

theorem RwSpinlock.tryRead_success (l : RwSpinlock T)
    (h : l.flag < WRITE_NUMBER) :
    RwSpinlock.tryRead l
      = (some ⟨⟩, { l with flag := (l.flag + 1) % u32Mod }) := by
  simp only [RwSpinlock.tryRead]
  rw [if_pos h]

theorem RwSpinlock.dropGuard_write (l : RwSpinlock T)
    (h : WRITE_NUMBER ≤ l.flag) :
    RwSpinlock.dropGuard l = { l with flag := 0 } := by
  unfold RwSpinlock.dropGuard
  rw [if_pos h]

theorem RwSpinlock.tryReadIter_flag (k : Nat) (l : RwSpinlock T)
    (h : l.flag < u32Mod) :
    (RwSpinlock.tryReadIter k l).flag = (l.flag + k) % u32Mod := by
  induction k generalizing l with
  | zero =>
      simp [RwSpinlock.tryReadIter, Nat.mod_eq_of_lt h]
  | succ k ih =>
      rw [RwSpinlock.tryReadIter, ih]
      · rw [RwSpinlock.tryRead_snd_flag, Nat.mod_add_mod]
        congr 1
        omega
      · rw [RwSpinlock.tryRead_snd_flag]
        exact Nat.mod_lt _ (by norm_num [u32Mod])

theorem RwSpinlock.tryReadAllFail_of_ge (k : Nat) (l : RwSpinlock T)
    (h1 : WRITE_NUMBER ≤ l.flag) (h2 : l.flag + k < u32Mod) :
    RwSpinlock.tryReadAllFail k l = true := by
  induction k generalizing l with
  | zero => rfl
  | succ k ih =>
      unfold RwSpinlock.tryReadAllFail
      have hlt : ¬ l.flag < WRITE_NUMBER := Nat.not_lt.mpr h1
      have hsucc : (l.flag + 1) % u32Mod = l.flag + 1 :=
        Nat.mod_eq_of_lt (by omega)
      rw [Bool.and_eq_true]
      constructor
      · rw [RwSpinlock.tryRead_fst]
        simp [hlt]
      · apply ih
        · rw [RwSpinlock.tryRead_snd_flag, hsucc]
          omega
        · rw [RwSpinlock.tryRead_snd_flag, hsucc]
          omega

end Helpers

/-- Claim C1 — the code evaluated at the failing input.  With a writer holding
the lock (`flag = WRITE_NUMBER`), `try_read` returns `None` but leaves the flag
at `WRITE_NUMBER + 1`, not at its pre-call value: the `fetch_add` increment is
never reversed, contradicting the claim that a failed `try_read` leaves the
state exactly as it was. -/
theorem tryRead_under_writer_leaves_increment :
    (RwSpinlock.tryRead (⟨WRITE_NUMBER, 0⟩ : RwSpinlock Nat)).fst = none
    ∧ (RwSpinlock.tryRead (⟨WRITE_NUMBER, 0⟩ : RwSpinlock Nat)).snd.flag
        = WRITE_NUMBER + 1
    ∧ (RwSpinlock.tryRead (⟨WRITE_NUMBER, 0⟩ : RwSpinlock Nat)).snd.flag
        ≠ WRITE_NUMBER := by
  refine ⟨?_, ?_, ?_⟩ <;> decide

/-- Claim C2 — the code evaluated at the failing input.  Both `try_read` and
`try_write` return the same unified guard value of the single guard type, and
`DerefMut` is available on that type, so a guard obtained from `try_read`
mutates the protected value (here from `0` to `7`), contradicting the claim
that read-acquisition guards are a distinct variant exposing only immutable
access. -/
theorem unified_guard_read_acquisition_mutates :
    (RwSpinlock.tryRead (RwSpinlock.new (0 : Nat))).fst = some ⟨⟩
    ∧ (RwSpinlock.tryWrite (RwSpinlock.new (0 : Nat))).fst = some ⟨⟩
    ∧ (RwSpinlock.derefMutSet ⟨⟩ 7
        (RwSpinlock.tryRead (RwSpinlock.new (0 : Nat))).snd).value = 7 := by
  refine ⟨?_, ?_, ?_⟩ <;> decide

/-- Claim C3: guard destruction runs exactly the stated release action — read
the state; at or above the sentinel reset it to `0`, otherwise decrement it by
`1` — and leaves the payload untouched.  (The hypothesis `1 ≤ flag` holds
whenever a guard exists, since every live guard contributed at least `1` to the
flag; at `flag = 0` the `u32` decrement would wrap.) -/
theorem dropGuard_release_action (l : RwSpinlock Nat) (h : 1 ≤ l.flag) :
    (RwSpinlock.dropGuard l).flag
      = (if WRITE_NUMBER ≤ l.flag then 0 else l.flag - 1)
    ∧ (RwSpinlock.dropGuard l).value = l.value := by
  constructor
  · rw [RwSpinlock.dropGuard_flag]
    split
    · rfl
    · rename_i hw
      rw [Nat.not_le, WRITE_NUMBER_eq] at hw
      rw [u32Mod_eq]
      omega
  · unfold RwSpinlock.dropGuard
    split <;> rfl

/-- Witness for C3 at the concrete state `flag = 5`. -/
theorem dropGuard_release_action_witness :
    1 ≤ (⟨5, 0⟩ : RwSpinlock Nat).flag
    ∧ ((RwSpinlock.dropGuard (⟨5, 0⟩ : RwSpinlock Nat)).flag
          = (if WRITE_NUMBER ≤ (⟨5, 0⟩ : RwSpinlock Nat).flag then 0
             else (⟨5, 0⟩ : RwSpinlock Nat).flag - 1)
        ∧ (RwSpinlock.dropGuard (⟨5, 0⟩ : RwSpinlock Nat)).value
          = (⟨5, 0⟩ : RwSpinlock Nat).value) :=
  ⟨by decide, dropGuard_release_action ⟨5, 0⟩ (by decide)⟩

/-- Claim C4: `try_write` succeeds iff the flag was `0`; on success the flag
becomes the write sentinel `2^30`, on failure the flag is unchanged, and the
payload is never touched. -/
theorem tryWrite_some_iff_unlocked (l : RwSpinlock Nat) :
    ((RwSpinlock.tryWrite l).fst.isSome = true ↔ l.flag = 0)
    ∧ (RwSpinlock.tryWrite l).snd.flag
        = (if l.flag = 0 then 2 ^ 30 else l.flag)
    ∧ (RwSpinlock.tryWrite l).snd.value = l.value := by
  unfold RwSpinlock.tryWrite
  by_cases h : l.flag = 0 <;> simp [h, WRITE_NUMBER_eq]

/-- Claim C5 — counterexample.  In the blocking `read()` path, a failed
admission attempt at `flag = WRITE_NUMBER` (writer held) returns no guard and
leaves the flag at `WRITE_NUMBER + 1`, not backed out to `WRITE_NUMBER`: the
source spins directly after the failed `fetch_add`, with no decrement. -/
theorem readAttempt_failed_no_backout_at_sentinel :
    (RwSpinlock.readAttempt (⟨WRITE_NUMBER, 0⟩ : RwSpinlock Nat)).fst = none
    ∧ ¬ (RwSpinlock.readAttempt (⟨WRITE_NUMBER, 0⟩ : RwSpinlock Nat)).snd.flag
          = WRITE_NUMBER := by
  refine ⟨?_, ?_⟩ <;> decide

/-- Claim C5 as amended: every failed admission attempt of the blocking
`read()` leaves its own increment in place — the flag becomes the pre-value
plus one — before the thread begins spinning, so repeated failed attempts
inflate the counter (until a write-guard release resets it to `0`). -/
theorem readAttempt_failed_keeps_increment (l : RwSpinlock Nat)
    (h1 : WRITE_NUMBER ≤ l.flag) (h2 : l.flag + 1 < u32Mod) :
    (RwSpinlock.readAttempt l).fst = none
    ∧ (RwSpinlock.readAttempt l).snd.flag = l.flag + 1 := by
  have hlt : ¬ l.flag < WRITE_NUMBER := Nat.not_lt.mpr h1
  simp only [RwSpinlock.readAttempt]
  rw [if_neg hlt]
  exact ⟨rfl, Nat.mod_eq_of_lt h2⟩

/-- Witness for the amended C5 at the concrete state `flag = WRITE_NUMBER`. -/
theorem readAttempt_failed_keeps_increment_witness :
    (WRITE_NUMBER ≤ (⟨WRITE_NUMBER, 0⟩ : RwSpinlock Nat).flag
      ∧ (⟨WRITE_NUMBER, 0⟩ : RwSpinlock Nat).flag + 1 < u32Mod)
    ∧ ((RwSpinlock.readAttempt (⟨WRITE_NUMBER, 0⟩ : RwSpinlock Nat)).fst = none
        ∧ (RwSpinlock.readAttempt (⟨WRITE_NUMBER, 0⟩ : RwSpinlock Nat)).snd.flag
            = (⟨WRITE_NUMBER, 0⟩ : RwSpinlock Nat).flag + 1) :=
  ⟨⟨by decide, by decide⟩,
    readAttempt_failed_keeps_increment ⟨WRITE_NUMBER, 0⟩ (by decide) (by decide)⟩

/-- Claim C6: on a fresh lock, the blocking `read()` admits a reader on its
first attempt; while that read guard is held, `try_write` returns `None`;
after the read guard is dropped (no other guard outstanding), `try_write`
returns a guard. -/
theorem read_guard_blocks_tryWrite_until_drop :
    (RwSpinlock.readAttempt (RwSpinlock.new (0 : Nat))).fst.isSome = true
    ∧ (RwSpinlock.tryWrite
        (RwSpinlock.readAttempt (RwSpinlock.new (0 : Nat))).snd).fst = none
    ∧ (RwSpinlock.tryWrite
        (RwSpinlock.dropGuard
          (RwSpinlock.readAttempt (RwSpinlock.new (0 : Nat))).snd)).fst.isSome
        = true := by
  refine ⟨?_, ?_, ?_⟩ <;> decide

/-- Claim C7: a value written through a write guard and then released is
observed by the next read guard.  For any lock whose flag is `0` (no holder),
`try_write` succeeds; writing `v` through the guard, dropping it, then
acquiring via `try_read` succeeds and dereferencing yields exactly `v`. -/
theorem write_then_read_round_trip (v : Nat) (l : RwSpinlock Nat)
    (h : l.flag = 0) :
    (RwSpinlock.tryWrite l).fst.isSome = true
    ∧ (RwSpinlock.tryRead
        (RwSpinlock.dropGuard
          (RwSpinlock.derefMutSet ⟨⟩ v (RwSpinlock.tryWrite l).snd))).fst.isSome
        = true
    ∧ RwSpinlock.deref ⟨⟩
        (RwSpinlock.tryRead
          (RwSpinlock.dropGuard
            (RwSpinlock.derefMutSet ⟨⟩ v (RwSpinlock.tryWrite l).snd))).snd
        = v := by
  rw [RwSpinlock.tryWrite_success l h]
  simp only [RwSpinlock.derefMutSet]
  rw [RwSpinlock.dropGuard_write _ (le_refl _)]
  rw [RwSpinlock.tryRead_success _ WRITE_NUMBER_pos]
  exact ⟨rfl, rfl, rfl⟩

/-- Witness for C7: Scenario A — lock created with value `0`, write `10`,
release, read back `10`. -/
theorem write_then_read_round_trip_witness :
    (RwSpinlock.new (0 : Nat)).flag = 0
    ∧ ((RwSpinlock.tryWrite (RwSpinlock.new (0 : Nat))).fst.isSome = true
      ∧ (RwSpinlock.tryRead
          (RwSpinlock.dropGuard
            (RwSpinlock.derefMutSet ⟨⟩ 10
              (RwSpinlock.tryWrite (RwSpinlock.new (0 : Nat))).snd))).fst.isSome
          = true
      ∧ RwSpinlock.deref ⟨⟩
          (RwSpinlock.tryRead
            (RwSpinlock.dropGuard
              (RwSpinlock.derefMutSet ⟨⟩ 10
                (RwSpinlock.tryWrite (RwSpinlock.new (0 : Nat))).snd))).snd
          = 10) :=
  ⟨by decide, write_then_read_round_trip 10 (RwSpinlock.new 0) (by decide)⟩

/-- Claim C8 — counterexample.  After a write guard is acquired on a fresh lock
and leaked (its release never runs, so the flag stays write-locked), `try_read`
does not return `None` indefinitely: each failed call still increments the
`u32` flag, so after `2^32 - 2^30` calls the counter wraps around to `0` and
the very next `try_read` returns a guard. -/
theorem leaked_writer_tryRead_eventually_succeeds :
    (RwSpinlock.tryRead
      (RwSpinlock.tryReadIter (u32Mod - WRITE_NUMBER)
        (RwSpinlock.tryWrite (RwSpinlock.new (0 : Nat))).snd)).fst.isSome
      = true := by
  have hleak : (RwSpinlock.tryWrite (RwSpinlock.new (0 : Nat))).snd
      = ⟨WRITE_NUMBER, 0⟩ := by
    rw [RwSpinlock.tryWrite_success _ rfl]
    rfl
  rw [hleak]
  have hWlt : (⟨WRITE_NUMBER, 0⟩ : RwSpinlock Nat).flag < u32Mod := by
    show WRITE_NUMBER < u32Mod
    rw [WRITE_NUMBER_eq, u32Mod_eq]
    norm_num
  have hflag : (RwSpinlock.tryReadIter (u32Mod - WRITE_NUMBER)
      (⟨WRITE_NUMBER, 0⟩ : RwSpinlock Nat)).flag = 0 := by
    rw [RwSpinlock.tryReadIter_flag _ _ hWlt]
    show (WRITE_NUMBER + (u32Mod - WRITE_NUMBER)) % u32Mod = 0
    rw [WRITE_NUMBER_eq, u32Mod_eq]
  rw [RwSpinlock.tryRead_fst, hflag, if_pos WRITE_NUMBER_pos]
  rfl

/-- Claim C8 as amended: after the write guard is leaked, `try_read` returns
`None` for every call number up to `2^32 - 2^30`; only once the `u32` counter
has wrapped all the way around to `0` does a later call succeed. -/
theorem leaked_writer_tryRead_none_before_wrap (k : Nat)
    (h : k < u32Mod - WRITE_NUMBER) :
    (RwSpinlock.tryRead
      (RwSpinlock.tryReadIter k
        (RwSpinlock.tryWrite (RwSpinlock.new (0 : Nat))).snd)).fst = none := by
  have hleak : (RwSpinlock.tryWrite (RwSpinlock.new (0 : Nat))).snd
      = ⟨WRITE_NUMBER, 0⟩ := by
    rw [RwSpinlock.tryWrite_success _ rfl]
    rfl
  rw [hleak]
  have hWlt : (⟨WRITE_NUMBER, 0⟩ : RwSpinlock Nat).flag < u32Mod := by
    show WRITE_NUMBER < u32Mod
    rw [WRITE_NUMBER_eq, u32Mod_eq]
    norm_num
  rw [RwSpinlock.tryRead_fst, RwSpinlock.tryReadIter_flag _ _ hWlt]
  show (if (WRITE_NUMBER + k) % u32Mod < WRITE_NUMBER
        then (some ⟨⟩ : Option RwSpinlockGuard) else none)
      = none
  rw [WRITE_NUMBER_eq, u32Mod_eq] at h ⊢
  have hmod : (1073741824 + k) % 4294967296 = 1073741824 + k :=
    Nat.mod_eq_of_lt (by omega)
  rw [hmod, if_neg (by omega)]

/-- Witness for the amended C8 at `k = 2` failed calls after the leak. -/
theorem leaked_writer_tryRead_none_before_wrap_witness :
    2 < u32Mod - WRITE_NUMBER
    ∧ (RwSpinlock.tryRead
        (RwSpinlock.tryReadIter 2
          (RwSpinlock.tryWrite (RwSpinlock.new (0 : Nat))).snd)).fst = none :=
  ⟨by decide, leaked_writer_tryRead_none_before_wrap 2 (by decide)⟩

/-- Claim C9 — counterexample.  At flag `WRITE_NUMBER - 1` (that many active
readers, still below the sentinel), `try_read` admits one more reader, but the
resulting flag is exactly `WRITE_NUMBER`: a reader admission alone pushes the
state into the write-locked range, contrary to the claim that the state stays
below the sentinel. -/
theorem tryRead_at_sentinel_minus_one_reaches_sentinel :
    (RwSpinlock.tryRead
      (⟨WRITE_NUMBER - 1, 0⟩ : RwSpinlock Nat)).fst.isSome = true
    ∧ ¬ (RwSpinlock.tryRead
          (⟨WRITE_NUMBER - 1, 0⟩ : RwSpinlock Nat)).snd.flag < WRITE_NUMBER := by
  refine ⟨?_, ?_⟩ <;> decide

/-- Claim C9 as amended: for every flag below the sentinel, `try_read` admits
one more reader and the resulting flag is the old flag plus one, which is at
most the sentinel; it stays strictly below the sentinel only while fewer than
`WRITE_NUMBER - 1` readers were active — at exactly `WRITE_NUMBER - 1` readers
the admission lands on the sentinel itself. -/
theorem tryRead_below_sentinel_admits (l : RwSpinlock Nat)
    (h : l.flag < WRITE_NUMBER) :
    (RwSpinlock.tryRead l).fst.isSome = true
    ∧ (RwSpinlock.tryRead l).snd.flag = l.flag + 1
    ∧ (RwSpinlock.tryRead l).snd.flag ≤ WRITE_NUMBER := by
  have hmod : (l.flag + 1) % u32Mod = l.flag + 1 := by
    apply Nat.mod_eq_of_lt
    rw [WRITE_NUMBER_eq] at h
    rw [u32Mod_eq]
    omega
  refine ⟨?_, ?_, ?_⟩
  · rw [RwSpinlock.tryRead_fst, if_pos h]
    rfl
  · rw [RwSpinlock.tryRead_snd_flag, hmod]
  · rw [RwSpinlock.tryRead_snd_flag, hmod]
    omega

/-- Witness for the amended C9 at the concrete state `flag = 3`. -/
theorem tryRead_below_sentinel_admits_witness :
    (⟨3, 0⟩ : RwSpinlock Nat).flag < WRITE_NUMBER
    ∧ ((RwSpinlock.tryRead (⟨3, 0⟩ : RwSpinlock Nat)).fst.isSome = true
      ∧ (RwSpinlock.tryRead (⟨3, 0⟩ : RwSpinlock Nat)).snd.flag
          = (⟨3, 0⟩ : RwSpinlock Nat).flag + 1
      ∧ (RwSpinlock.tryRead (⟨3, 0⟩ : RwSpinlock Nat)).snd.flag
          ≤ WRITE_NUMBER) :=
  ⟨by decide, tryRead_below_sentinel_admits ⟨3, 0⟩ (by decide)⟩

/-- Claim C10: after a successful `try_write` on a fresh lock and any number
`k` of failed `try_read` calls, each of which left the counter inflated (so the
counter `WRITE_NUMBER + k` has not wrapped), all `k` calls indeed returned
`None`, destroying the write guard resets the flag to exactly `0`, and the next
`try_write` succeeds. -/
theorem write_drop_erases_tryRead_drift (k : Nat)
    (h : WRITE_NUMBER + k < u32Mod) :
    RwSpinlock.tryReadAllFail k
        (RwSpinlock.tryWrite (RwSpinlock.new (0 : Nat))).snd = true
    ∧ (RwSpinlock.tryReadIter k
        (RwSpinlock.tryWrite (RwSpinlock.new (0 : Nat))).snd).flag
        = WRITE_NUMBER + k
    ∧ (RwSpinlock.dropGuard
        (RwSpinlock.tryReadIter k
          (RwSpinlock.tryWrite (RwSpinlock.new (0 : Nat))).snd)).flag = 0
    ∧ (RwSpinlock.tryWrite
        (RwSpinlock.dropGuard
          (RwSpinlock.tryReadIter k
            (RwSpinlock.tryWrite (RwSpinlock.new (0 : Nat))).snd))).fst.isSome
        = true := by
  have hleak : (RwSpinlock.tryWrite (RwSpinlock.new (0 : Nat))).snd
      = ⟨WRITE_NUMBER, 0⟩ := by
    rw [RwSpinlock.tryWrite_success _ rfl]
    rfl
  rw [hleak]
  have hWlt : (⟨WRITE_NUMBER, 0⟩ : RwSpinlock Nat).flag < u32Mod := by
    show WRITE_NUMBER < u32Mod
    rw [WRITE_NUMBER_eq, u32Mod_eq]
    norm_num
  have hflag : (RwSpinlock.tryReadIter k
      (⟨WRITE_NUMBER, 0⟩ : RwSpinlock Nat)).flag = WRITE_NUMBER + k := by
    rw [RwSpinlock.tryReadIter_flag _ _ hWlt]
    show (WRITE_NUMBER + k) % u32Mod = WRITE_NUMBER + k
    exact Nat.mod_eq_of_lt h
  have hdrop : RwSpinlock.dropGuard
      (RwSpinlock.tryReadIter k (⟨WRITE_NUMBER, 0⟩ : RwSpinlock Nat))
      = { RwSpinlock.tryReadIter k (⟨WRITE_NUMBER, 0⟩ : RwSpinlock Nat) with
          flag := 0 } := by
    apply RwSpinlock.dropGuard_write
    rw [hflag]
    exact Nat.le_add_right _ _
  refine ⟨?_, hflag, ?_, ?_⟩
  · exact RwSpinlock.tryReadAllFail_of_ge k _ (le_refl _) h
  · rw [hdrop]
  · rw [hdrop, RwSpinlock.tryWrite_fst]
    simp

/-- Witness for C10 at `k = 3` failed `try_read` calls under the writer. -/
theorem write_drop_erases_tryRead_drift_witness :
    WRITE_NUMBER + 3 < u32Mod
    ∧ (RwSpinlock.tryReadAllFail 3
          (RwSpinlock.tryWrite (RwSpinlock.new (0 : Nat))).snd = true
      ∧ (RwSpinlock.tryReadIter 3
          (RwSpinlock.tryWrite (RwSpinlock.new (0 : Nat))).snd).flag
          = WRITE_NUMBER + 3
      ∧ (RwSpinlock.dropGuard
          (RwSpinlock.tryReadIter 3
            (RwSpinlock.tryWrite (RwSpinlock.new (0 : Nat))).snd)).flag = 0
      ∧ (RwSpinlock.tryWrite
          (RwSpinlock.dropGuard
            (RwSpinlock.tryReadIter 3
              (RwSpinlock.tryWrite
                (RwSpinlock.new (0 : Nat))).snd))).fst.isSome = true) :=
  ⟨by decide, write_drop_erases_tryRead_drift 3 (by decide)⟩
